import Mathlib

/-
Shallow embedding of the multiplayer chess session manager (the socket.io
server of this repository, richest snapshot: the variant that stores seats,
an open-games table and emits gameOver).  The rules engine (chess.js) is an
external dependency scoped out by the design document; it is represented by
an abstract interface mirroring exactly the calls the server makes into it:
new Chess(), turn(), move(from, to), fen(), isCheckmate(), isCheck().
-/

namespace ChessServer

/-- The two sides, as chess.js reports them via turn() and move.color. -/
inductive Color where
  | white
  | black
deriving DecidableEq

/-- The other side. -/
def Color.opposite : Color → Color
  | Color.white => Color.black
  | Color.black => Color.white

/-- The record chess.js returns from a successful move(): the position after
the move, the color of the moving piece, and the lowercase type letter of a
captured unit when the move captured one. -/
structure MoveRec (Pos : Type) where
  newPos : Pos
  color : Color
  captured : Option Char
deriving DecidableEq

/-- The interface of the external rules engine, exactly the operations the
server calls on a chess.js instance.  move returns none both for a null
return and for a thrown error: either way the server rejects and the
position is unchanged. -/
structure Engine (Pos : Type) where
  init : Pos
  turn : Pos → Color
  move : Pos → String → String → Option (MoveRec Pos)
  fen : Pos → String
  isCheckmate : Pos → Bool
  isCheck : Pos → Bool

/-- capturedPieces object: one list per side, as in the server state. -/
structure CapturedPieces where
  white : List Char
  black : List Char
deriving DecidableEq

/-- players object: each seat holds a socket id or null. -/
structure Players where
  white : Option String
  black : Option String
deriving DecidableEq

/-- One entry of the games table:
games[gameId] = \x7b chess, moveHistory, capturedPieces, players, inviteLink \x7d. -/
structure Game (Pos : Type) where
  chess : Pos
  moveHistory : List String
  capturedPieces : CapturedPieces
  players : Players
  inviteLink : String
deriving DecidableEq

/-- One entry of the openGames table:
openGames[gameId] = \x7b id, white, black, inviteLink \x7d. -/
structure OpenEntry where
  id : String
  white : Option String
  black : Option String
  inviteLink : String
deriving DecidableEq

/-- The module level mutable state of the server: the games registry and the
open-games lobby table, both JS objects keyed by game id. -/
structure ServerState (Pos : Type) where
  games : List (String × Game Pos)
  openGames : List (String × OpenEntry)
deriving DecidableEq

/-- Messages the server emits. -/
inductive Msg (Pos : Type) where
  | updateFEN (fenStr : String)
  | updateCaptures (caps : CapturedPieces)
  | updateHistory (hist : List String)
  | gameOver (reason : String) (winner : Color)
  | inCheck (side : Color)
  | gameDetails (gid : String) (players : Players)
  | openGamesList (entries : List OpenEntry)
  | debug (text : String)
deriving DecidableEq

/-- An emission: socket.emit, io.to(room).emit or io.emit. -/
inductive Emit (Pos : Type) where
  | toSocket (sid : String) (msg : Msg Pos)
  | toRoom (gid : String) (msg : Msg Pos)
  | toAll (msg : Msg Pos)
deriving DecidableEq

/-- Lookup in a JS object modelled as an association list. -/
def lookupEntry {α : Type} : List (String × α) → String → Option α
  | [], _ => none
  | (k, v) :: rest, key => if k = key then some v else lookupEntry rest key

/-- Assignment obj[key] = v on a JS object modelled as an association list:
replaces the existing binding or appends a new one. -/
def setEntry {α : Type} : List (String × α) → String → α → List (String × α)
  | [], key, v => [(key, v)]
  | (k, v0) :: rest, key, v =>
      if k = key then (key, v) :: rest else (k, v0) :: setEntry rest key v

/-- Object.values of the openGames table. -/
def openValues (l : List (String × OpenEntry)) : List OpenEntry :=
  l.map (fun p => p.2)

/-- The fresh game object built on first create:
chess = new Chess(), empty history, empty captures, both seats null. -/
def newGame {Pos : Type} (eng : Engine Pos) (inviteLink : String) : Game Pos :=
  { chess := eng.init
    moveHistory := []
    capturedPieces := { white := [], black := [] }
    players := { white := none, black := none }
    inviteLink := inviteLink }

/-- Handler for createGame \x7b gameId, role \x7d.  A missing id (empty
string) is replaced by a fresh uuid, passed here as freshId; the coin models
the Math.random() > 0.5 draw used when role is random.  The creator seat is
assigned unconditionally: white when role is white or the random draw says
white, black otherwise.  The openGames entry is then written and the state
snapshots are emitted to the creator, plus the lobby to everyone. -/
def createGame {Pos : Type} (eng : Engine Pos) (st : ServerState Pos)
    (sid gameId0 role freshId : String) (coin : Bool) :
    ServerState Pos × List (Emit Pos) :=
  let gameId := if gameId0 = "" then freshId else gameId0
  let inviteLink := "http://localhost:3001/game/" ++ gameId
  let games1 :=
    match lookupEntry st.games gameId with
    | some _ => st.games
    | none => setEntry st.games gameId (newGame eng inviteLink)
  let game := (lookupEntry games1 gameId).getD (newGame eng inviteLink)
  let game2 :=
    if role = "white" ∨ (role = "random" ∧ coin) then
      { game with players := { game.players with white := some sid } }
    else
      { game with players := { game.players with black := some sid } }
  let games2 := setEntry games1 gameId game2
  let open2 := setEntry st.openGames gameId
    { id := gameId
      white := game2.players.white
      black := game2.players.black
      inviteLink := inviteLink }
  ({ games := games2, openGames := open2 },
   [Emit.toSocket sid (Msg.gameDetails gameId game2.players),
    Emit.toSocket sid (Msg.updateFEN (eng.fen game2.chess)),
    Emit.toSocket sid (Msg.updateCaptures game2.capturedPieces),
    Emit.toSocket sid (Msg.updateHistory game2.moveHistory),
    Emit.toAll (Msg.openGamesList (openValues open2))])

/-- Handler for joinGame gameId: not-found debug when the id is unknown;
otherwise fill the white seat if empty, else the black seat if empty, else
reject with a game-full debug; on success emit the snapshots to the joiner
and rebroadcast the (unchanged) open-games table. -/
def joinGame {Pos : Type} (eng : Engine Pos) (st : ServerState Pos)
    (sid gameId : String) : ServerState Pos × List (Emit Pos) :=
  match lookupEntry st.games gameId with
  | none => (st, [Emit.toSocket sid (Msg.debug "Game not found!")])
  | some game =>
      if game.players.white = none then
        let game2 := { game with players := { game.players with white := some sid } }
        ({ st with games := setEntry st.games gameId game2 },
         [Emit.toSocket sid (Msg.gameDetails gameId game2.players),
          Emit.toSocket sid (Msg.updateFEN (eng.fen game2.chess)),
          Emit.toSocket sid (Msg.updateCaptures game2.capturedPieces),
          Emit.toSocket sid (Msg.updateHistory game2.moveHistory),
          Emit.toAll (Msg.openGamesList (openValues st.openGames))])
      else if game.players.black = none then
        let game2 := { game with players := { game.players with black := some sid } }
        ({ st with games := setEntry st.games gameId game2 },
         [Emit.toSocket sid (Msg.gameDetails gameId game2.players),
          Emit.toSocket sid (Msg.updateFEN (eng.fen game2.chess)),
          Emit.toSocket sid (Msg.updateCaptures game2.capturedPieces),
          Emit.toSocket sid (Msg.updateHistory game2.moveHistory),
          Emit.toAll (Msg.openGamesList (openValues st.openGames))])
      else
        (st, [Emit.toSocket sid (Msg.debug "Game is full!")])

/-- Handler for resetGame gameId: not-found debug when the id is unknown;
otherwise replace the engine instance by a fresh one and clear the move
history and both capture lists — the players object is untouched — then
broadcast the cleared snapshots to the room. -/
def resetGame {Pos : Type} (eng : Engine Pos) (st : ServerState Pos)
    (sid gameId : String) : ServerState Pos × List (Emit Pos) :=
  match lookupEntry st.games gameId with
  | none => (st, [Emit.toSocket sid (Msg.debug "Game not found for reset.")])
  | some game =>
      let game2 := { game with
        chess := eng.init
        moveHistory := []
        capturedPieces := { white := [], black := [] } }
      ({ st with games := setEntry st.games gameId game2 },
       [Emit.toRoom gameId (Msg.updateFEN (eng.fen game2.chess)),
        Emit.toRoom gameId (Msg.updateCaptures game2.capturedPieces),
        Emit.toRoom gameId (Msg.updateHistory game2.moveHistory)])

/-- game.players[turnColor]: the occupant of the seat whose color is the
engine side-to-move for the current position. -/
def seatFor {Pos : Type} (eng : Engine Pos) (g : Game Pos) : Option String :=
  match eng.turn g.chess with
  | Color.white => g.players.white
  | Color.black => g.players.black

/-- Capture bookkeeping of an accepted move: when move.captured is present,
push its uppercased letter onto capturedPieces[capturingSide] where
capturingSide is the side opposite to move.color. -/
def applyCapture {Pos : Type} (g : Game Pos) (mv : MoveRec Pos) : Game Pos :=
  match mv.captured with
  | none => g
  | some c =>
      match mv.color with
      | Color.white =>
          { g with capturedPieces :=
              { g.capturedPieces with black := g.capturedPieces.black ++ [c.toUpper] } }
      | Color.black =>
          { g with capturedPieces :=
              { g.capturedPieces with white := g.capturedPieces.white ++ [c.toUpper] } }

/-- Handler for makeMove \x7b from, to, gameId \x7d: not-found debug when the
id is unknown; a turn debug when the sender does not hold the seat of the
side to move; an invalid-move debug when the engine rejects; otherwise the
position is replaced, from-to is appended to the history, capture
bookkeeping runs, the snapshots are broadcast, and a checkmate after the
move broadcasts gameOver with reason checkmate and winner the engine
side-to-move of the position after the move. -/
def makeMove {Pos : Type} (eng : Engine Pos) (st : ServerState Pos)
    (sid gameId fromSq toSq : String) : ServerState Pos × List (Emit Pos) :=
  match lookupEntry st.games gameId with
  | none => (st, [Emit.toSocket sid (Msg.debug "Game not found!")])
  | some game =>
      if seatFor eng game = some sid then
        match eng.move game.chess fromSq toSq with
        | none => (st, [Emit.toSocket sid (Msg.debug "Invalid move! Please try again.")])
        | some mv =>
            let game1 := { game with
              chess := mv.newPos
              moveHistory := game.moveHistory ++ [fromSq ++ "-" ++ toSq] }
            let game2 := applyCapture game1 mv
            let capEmits :=
              match mv.captured with
              | some _ => [Emit.toRoom gameId (Msg.updateCaptures game2.capturedPieces)]
              | none => ([] : List (Emit Pos))
            let endEmits :=
              if eng.isCheckmate mv.newPos then
                [Emit.toRoom gameId (Msg.gameOver "checkmate" (eng.turn mv.newPos))]
              else if eng.isCheck mv.newPos then
                [Emit.toRoom gameId (Msg.inCheck (eng.turn mv.newPos))]
              else []
            ({ st with games := setEntry st.games gameId game2 },
             capEmits ++
               [Emit.toRoom gameId (Msg.updateFEN (eng.fen mv.newPos)),
                Emit.toRoom gameId (Msg.updateHistory game2.moveHistory)] ++
               endEmits)
      else
        (st, [Emit.toSocket sid (Msg.debug "not your turn")])

/-- The inbound events the connection handler reacts to.  The coin and
freshId fields of createGame carry the Math.random() draw and the uuid the
server would mint, making the handler a deterministic function of the
event.  cancelGame is listed because the client emits it; the server
registers no handler for it. -/
inductive Event where
  | createGame (sid gameId role freshId : String) (coin : Bool)
  | joinGame (sid gameId : String)
  | resetGame (sid gameId : String)
  | makeMove (sid gameId fromSq toSq : String)
  | cancelGame (sid gameId : String)
  | disconnect (sid : String)
deriving DecidableEq

/-- Dispatch of one inbound event.  cancelGame has no registered handler on
the server, so it neither mutates nor emits; the disconnect handler only
logs (its body is a comment), so it neither mutates nor emits. -/
def step {Pos : Type} (eng : Engine Pos) (st : ServerState Pos) :
    Event → ServerState Pos × List (Emit Pos)
  | Event.createGame sid gid role freshId coin => createGame eng st sid gid role freshId coin
  | Event.joinGame sid gid => joinGame eng st sid gid
  | Event.resetGame sid gid => resetGame eng st sid gid
  | Event.makeMove sid gid fromSq toSq => makeMove eng st sid gid fromSq toSq
  | Event.cancelGame _ _ => (st, [])
  | Event.disconnect _ => (st, [])

/-- The state after a sequence of inbound events. -/
def run {Pos : Type} (eng : Engine Pos) (st : ServerState Pos) : List Event → ServerState Pos
  | [] => st
  | e :: es => run eng (step eng st e).1 es

/-- The state at server start: both tables empty. -/
def initialState {Pos : Type} : ServerState Pos :=
  { games := [], openGames := [] }

/-- Modelled from the spec: the code stores no phase field, so the phase
in-progress of the design document is read off the seats — a session is in
progress when both seats are occupied. -/
def bothSeatsOccupied {Pos : Type} (g : Game Pos) : Bool :=
  g.players.white.isSome && g.players.black.isSome

/-- The capture list of one side. -/
def capsOf (cp : CapturedPieces) : Color → List Char
  | Color.white => cp.white
  | Color.black => cp.black

/-- The lowercase single-letter piece identifiers chess.js can report in
move.captured (a king is never captured). -/
def pieceIds : List Char := ['p', 'n', 'b', 'r', 'q']

/-- An engine only ever reports captured identifiers from the given list. -/
def capturesWithin {Pos : Type} (eng : Engine Pos) (allowed : List Char) : Prop :=
  ∀ p fromSq toSq mv c, eng.move p fromSq toSq = some mv → mv.captured = some c →
    c ∈ allowed

/-- Every element of both capture lists of a game is the uppercased form of
an identifier from the allowed list. -/
def gameCapsOK (allowed : List Char) {Pos : Type} (g : Game Pos) : Prop :=
  (∀ x ∈ g.capturedPieces.white, ∃ c ∈ allowed, x = c.toUpper) ∧
  (∀ x ∈ g.capturedPieces.black, ∃ c ∈ allowed, x = c.toUpper)

/-- Every game of a registry satisfies gameCapsOK. -/
def gamesCapsOK (allowed : List Char) {Pos : Type}
    (l : List (String × Game Pos)) : Prop :=
  ∀ gid g, lookupEntry l gid = some g → gameCapsOK allowed g

/-- A deterministic stand-in engine over Nat positions, used to evaluate
the handlers on concrete inputs: even positions are white to move, a move
is valid whenever its squares differ, a move onto the square named cap
captures a pawn, and position 3 is checkmate. -/
def toyEngine : Engine Nat :=
  { init := 0
    turn := fun p => if p % 2 = 0 then Color.white else Color.black
    move := fun p fromSq toSq =>
      if fromSq = toSq then none
      else some { newPos := p + 1
                  color := if p % 2 = 0 then Color.white else Color.black
                  captured := if toSq = "cap" then some 'p' else none }
    fen := fun p => toString p
    isCheckmate := fun p => p == 3
    isCheck := fun _ => false }

/-- A game with both seats taken, at the starting position. -/
def gameBothSeats : Game Nat :=
  { chess := 0
    moveHistory := []
    capturedPieces := { white := [], black := [] }
    players := { white := some "A", black := some "B" }
    inviteLink := "" }

/-- A server holding only gameBothSeats under id G. -/
def stBothSeats : ServerState Nat :=
  { games := [("G", gameBothSeats)], openGames := [] }

/-- A game whose creator took the white seat and whose second seat is still
empty: per the design document this session is awaiting its second player. -/
def gameOneSeat : Game Nat :=
  { chess := 0
    moveHistory := []
    capturedPieces := { white := [], black := [] }
    players := { white := some "A", black := none }
    inviteLink := "" }

/-- A server holding only gameOneSeat under id G, listed in the lobby. -/
def stOneSeat : ServerState Nat :=
  { games := [("G", gameOneSeat)]
    openGames := [("G", { id := "G", white := some "A", black := none, inviteLink := "" })] }

/-- A fully seated game one ply before checkmate of the toy engine. -/
def gameMate : Game Nat :=
  { chess := 2
    moveHistory := []
    capturedPieces := { white := [], black := [] }
    players := { white := some "A", black := some "B" }
    inviteLink := "" }

/-- A server holding only gameMate under id G. -/
def stMate : ServerState Nat :=
  { games := [("G", gameMate)], openGames := [] }

/-- A fully seated mid-game state with a nonempty history and nonempty
capture lists. -/
def gameMid : Game Nat :=
  { chess := 5
    moveHistory := ["e2-e4", "e7-e5"]
    capturedPieces := { white := ['P'], black := ['Q'] }
    players := { white := some "A", black := some "B" }
    inviteLink := "L" }

/-- A server holding only gameMid under id G. -/
def stMid : ServerState Nat :=
  { games := [("G", gameMid)], openGames := [] }

theorem lookupEntry_setEntry_self {α : Type} (l : List (String × α))
    (k : String) (v : α) : lookupEntry (setEntry l k v) k = some v := by
  induction l with
  | nil => simp [setEntry, lookupEntry]
  | cons hd tl ih =>
      obtain ⟨k0, v0⟩ := hd
      by_cases h : k0 = k
      · simp [setEntry, h, lookupEntry]
      · simp [setEntry, h, lookupEntry, ih]

theorem lookupEntry_setEntry_cases {α : Type} (l : List (String × α))
    (k k2 : String) (v g : α)
    (h : lookupEntry (setEntry l k v) k2 = some g) :
    g = v ∨ lookupEntry l k2 = some g := by
  induction l with
  | nil =>
      simp [setEntry, lookupEntry] at h
      rcases h with ⟨-, h2⟩
      exact Or.inl h2.symm
  | cons hd tl ih =>
      obtain ⟨k0, v0⟩ := hd
      by_cases hk : k0 = k
      · simp [setEntry, hk, lookupEntry] at h
        by_cases h2 : k = k2
        · simp [h2] at h
          exact Or.inl h.symm
        · simp [h2] at h
          right
          simp [lookupEntry, hk, h2, h]
      · simp [setEntry, hk, lookupEntry] at h
        by_cases h2 : k0 = k2
        · simp [h2] at h
          right
          simp [lookupEntry, h2, h]
        · simp [h2] at h
          rcases ih h with h3 | h3
          · exact Or.inl h3
          · right
            simp [lookupEntry, h2, h3]

theorem gamesCapsOK_setEntry {Pos : Type} (allowed : List Char)
    (l : List (String × Game Pos)) (k : String) (g2 : Game Pos)
    (hl : gamesCapsOK allowed l) (hg : gameCapsOK allowed g2) :
    gamesCapsOK allowed (setEntry l k g2) := by
  intro gid g h
  rcases lookupEntry_setEntry_cases l k gid g2 g h with h1 | h1
  · exact h1 ▸ hg
  · exact hl gid g h1

theorem gameCapsOK_applyCapture {Pos : Type} (allowed : List Char)
    (g : Game Pos) (mv : MoveRec Pos) (hg : gameCapsOK allowed g)
    (hc : ∀ c, mv.captured = some c → c ∈ allowed) :
    gameCapsOK allowed (applyCapture g mv) := by
  cases hcap : mv.captured with
  | none => simpa [applyCapture, hcap] using hg
  | some c =>
      have hcA : c ∈ allowed := hc c hcap
      cases hcol : mv.color with
      | white =>
          constructor
          · intro x hx
            simp only [applyCapture, hcap, hcol] at hx
            exact hg.1 x hx
          · intro x hx
            simp only [applyCapture, hcap, hcol] at hx
            rcases List.mem_append.mp hx with h1 | h1
            · exact hg.2 x h1
            · exact ⟨c, hcA, List.mem_singleton.mp h1⟩
      | black =>
          constructor
          · intro x hx
            simp only [applyCapture, hcap, hcol] at hx
            rcases List.mem_append.mp hx with h1 | h1
            · exact hg.1 x h1
            · exact ⟨c, hcA, List.mem_singleton.mp h1⟩
          · intro x hx
            simp only [applyCapture, hcap, hcol] at hx
            exact hg.2 x hx

theorem gamesCapsOK_step {Pos : Type} (eng : Engine Pos) (allowed : List Char)
    (hEng : capturesWithin eng allowed) (st : ServerState Pos)
    (hst : gamesCapsOK allowed st.games) (e : Event) :
    gamesCapsOK allowed (step eng st e).1.games := by
  cases e with
  | createGame sid gid0 role freshId coin =>
      simp only [step, createGame]
      cases hl : lookupEntry st.games (if gid0 = "" then freshId else gid0) with
      | some g0 =>
          simp only [hl, Option.getD_some]
          refine gamesCapsOK_setEntry allowed st.games _ _ hst ?_
          split
          · exact hst _ g0 hl
          · exact hst _ g0 hl
      | none =>
          simp only [hl, lookupEntry_setEntry_self, Option.getD_some]
          refine gamesCapsOK_setEntry allowed _ _ _ ?_ ?_
          · refine gamesCapsOK_setEntry allowed st.games _ _ hst ?_
            simp [gameCapsOK, newGame]
          · split
            · simp [gameCapsOK, newGame]
            · simp [gameCapsOK, newGame]
  | joinGame sid gid =>
      cases hl : lookupEntry st.games gid with
      | none => simpa [step, joinGame, hl] using hst
      | some g =>
          by_cases hw : g.players.white = none
          · simp only [step, joinGame, hl, hw, if_true]
            exact gamesCapsOK_setEntry allowed st.games gid _ hst (hst gid g hl)
          · by_cases hb : g.players.black = none
            · simp only [step, joinGame, hl, hw, hb, if_false, if_true]
              exact gamesCapsOK_setEntry allowed st.games gid _ hst (hst gid g hl)
            · simpa [step, joinGame, hl, hw, hb] using hst
  | resetGame sid gid =>
      cases hl : lookupEntry st.games gid with
      | none => simpa [step, resetGame, hl] using hst
      | some g =>
          simp only [step, resetGame, hl]
          refine gamesCapsOK_setEntry allowed st.games gid _ hst ?_
          simp [gameCapsOK]
  | makeMove sid gid fromSq toSq =>
      cases hl : lookupEntry st.games gid with
      | none => simpa [step, makeMove, hl] using hst
      | some g =>
          by_cases hseat : seatFor eng g = some sid
          · cases hmv : eng.move g.chess fromSq toSq with
            | none => simpa [step, makeMove, hl, hseat, hmv] using hst
            | some mv =>
                simp only [step, makeMove, hl, hseat, hmv, if_true]
                refine gamesCapsOK_setEntry allowed st.games gid _ hst ?_
                refine gameCapsOK_applyCapture allowed _ mv (hst gid g hl) ?_
                intro c hc
                exact hEng g.chess fromSq toSq mv c hmv hc
          · simpa [step, makeMove, hl, hseat] using hst
  | cancelGame sid gid => exact hst
  | disconnect sid => exact hst

theorem gamesCapsOK_run {Pos : Type} (eng : Engine Pos) (allowed : List Char)
    (hEng : capturesWithin eng allowed) :
    ∀ (es : List Event) (st : ServerState Pos),
      gamesCapsOK allowed st.games → gamesCapsOK allowed (run eng st es).games
  | [], _, h => h
  | e :: es, st, h =>
      gamesCapsOK_run eng allowed hEng es (step eng st e).1
        (gamesCapsOK_step eng allowed hEng st h e)

theorem toyEngine_capturesWithin : capturesWithin toyEngine pieceIds := by
  intro p fromSq toSq mv c hmv hc
  by_cases h : fromSq = toSq
  · simp [toyEngine, h] at hmv
  · simp only [toyEngine, h, if_false, Option.some.injEq] at hmv
    rw [← hmv] at hc
    by_cases h2 : toSq = "cap"
    · simp only [h2, if_true, Option.some.injEq] at hc
      rw [← hc]
      decide
    · simp [h2] at hc

/-- Event sequence: create game G as white, second player joins, white then
makes a capturing move. -/
def c10Events : List Event :=
  [Event.createGame "A" "G" "white" "F1" true,
   Event.joinGame "B" "G",
   Event.makeMove "A" "G" "e2" "cap"]

/-- The game stored under G after c10Events. -/
def finalGameC10 : Game Nat :=
  { chess := 1
    moveHistory := ["e2-cap"]
    capturedPieces := { white := [], black := ['P'] }
    players := { white := some "A", black := some "B" }
    inviteLink := "http://localhost:3001/game/G" }

/-- C10: in every reachable server state, every element of either captured
collection is the uppercased single-letter identifier of the captured unit;
the stored identifier is computed from the type letter the engine reports,
which carries no color, so it is the same whichever side the piece belonged
to.  Stated for any engine whose reported capture identifiers are the
chess.js piece letters. -/
theorem c10_captured_identifiers {Pos : Type} (eng : Engine Pos)
    (hEng : capturesWithin eng pieceIds) (es : List Event) (gid : String)
    (g : Game Pos)
    (hg : lookupEntry (run eng initialState es).games gid = some g) :
    (∀ x ∈ g.capturedPieces.white, ∃ c ∈ pieceIds, x = c.toUpper) ∧
    (∀ x ∈ g.capturedPieces.black, ∃ c ∈ pieceIds, x = c.toUpper) := by
  have h0 : gamesCapsOK pieceIds (initialState : ServerState Pos).games := by
    intro gid2 g2 h
    simp [initialState, lookupEntry] at h
  exact gamesCapsOK_run eng pieceIds hEng es initialState h0 gid g hg

/-- Witness for C10: after a concrete capturing game, the stored capture
list of game G satisfies the invariant. -/
theorem c10_captured_identifiers_witness :
    (∀ x ∈ finalGameC10.capturedPieces.white, ∃ c ∈ pieceIds, x = c.toUpper) ∧
    (∀ x ∈ finalGameC10.capturedPieces.black, ∃ c ∈ pieceIds, x = c.toUpper) :=
  c10_captured_identifiers toyEngine toyEngine_capturesWithin c10Events "G"
    finalGameC10 (by decide)

/-- C5: after a reset of an existing session the move log is empty, both
capture collections are empty, the position is the canonical starting
position (a fresh engine instance), and the seat assignment — which
connection occupies which seat — is exactly what it was before. -/
theorem c5_reset_state {Pos : Type} (eng : Engine Pos) (st : ServerState Pos)
    (sid gid : String) (g : Game Pos)
    (h : lookupEntry st.games gid = some g) :
    lookupEntry (step eng st (Event.resetGame sid gid)).1.games gid =
      some { chess := eng.init
             moveHistory := []
             capturedPieces := { white := [], black := [] }
             players := g.players
             inviteLink := g.inviteLink } := by
  simp [step, resetGame, h, lookupEntry_setEntry_self]

/-- Witness for C5: resetting the concrete mid-game state clears position,
history and captures while both seats keep their occupants. -/
theorem c5_reset_state_witness :
    lookupEntry (step toyEngine stMid (Event.resetGame "A" "G")).1.games "G" =
      some { chess := 0
             moveHistory := []
             capturedPieces := { white := [], black := [] }
             players := { white := some "A", black := some "B" }
             inviteLink := "L" } :=
  c5_reset_state toyEngine stMid "A" "G" gameMid rfl

/-- C9 counterexample: connection C occupies no seat of game G (the seats
are held by A and B), yet its reset request is honored — the move log that
held two entries is cleared.  The claim says a reset from a connection
holding no seat is rejected and mutates nothing. -/
theorem c9_counterexample :
    gameMid.players.white = some "A" ∧ gameMid.players.black = some "B" ∧
    gameMid.moveHistory = ["e2-e4", "e7-e5"] ∧
    (lookupEntry (step toyEngine stMid (Event.resetGame "C" "G")).1.games "G").map
        (fun g => g.moveHistory) = some [] := by
  decide

/-- C9 (amended): a reset is honored for ANY requesting connection, seated
or not, whenever the session exists — the handler never inspects the
sender; only a reset naming an unknown session id is rejected, and that
rejection mutates nothing. -/
theorem c9_reset_authorization_amended {Pos : Type} (eng : Engine Pos)
    (st : ServerState Pos) (gid : String) :
    (∀ sid, lookupEntry st.games gid = none →
      step eng st (Event.resetGame sid gid) =
        (st, [Emit.toSocket sid (Msg.debug "Game not found for reset.")])) ∧
    (∀ sid g, lookupEntry st.games gid = some g →
      (step eng st (Event.resetGame sid gid)).1.games =
        setEntry st.games gid
          { g with chess := eng.init
                   moveHistory := []
                   capturedPieces := { white := [], black := [] } }) := by
  constructor
  · intro sid h
    simp [step, resetGame, h]
  · intro sid g h
    simp [step, resetGame, h]

/-- Witness for C9 amended: the unseated connection C resets the existing
concrete game and the registry is updated to the cleared game. -/
theorem c9_reset_authorization_amended_witness :
    lookupEntry stMid.games "G" = some gameMid ∧
    (step toyEngine stMid (Event.resetGame "C" "G")).1.games =
      setEntry stMid.games "G"
        { gameMid with chess := 0
                       moveHistory := []
                       capturedPieces := { white := [], black := [] } } :=
  ⟨rfl, (c9_reset_authorization_amended toyEngine stMid "G").2 "C" gameMid rfl⟩

/-- C4 counterexample: connection A occupies a seat of game G; its
disconnection leaves the registry and lobby tables exactly as they were,
and a subsequent join on that id succeeds (it fills the black seat) rather
than being rejected with not-found. -/
theorem c4_counterexample :
    step toyEngine stOneSeat (Event.disconnect "A") = (stOneSeat, []) ∧
    (lookupEntry (step toyEngine
        (step toyEngine stOneSeat (Event.disconnect "A")).1
        (Event.joinGame "B" "G")).1.games "G").map
      (fun g => g.players.black) = some (some "B") := by
  decide

/-- C4 (amended): the disconnect handler performs no cleanup at all — it
neither mutates the registry or the lobby table nor emits anything, so a
session whose seated connection disconnected remains registered and
joinable. -/
theorem c4_disconnect_amended {Pos : Type} (eng : Engine Pos)
    (st : ServerState Pos) (sid : String) :
    step eng st (Event.disconnect sid) = (st, []) := rfl

/-- C6: the server registers no handler for the cancel event the client
emits, so a cancel — from any connection, in any phase — neither deletes
the session nor notifies the lobby nor emits anything. -/
theorem c6_cancel_ignored {Pos : Type} (eng : Engine Pos)
    (st : ServerState Pos) (sid gid : String) :
    step eng st (Event.cancelGame sid gid) = (st, []) := rfl

/-- Event sequence: create game G as white, then a second player joins and
fills the last free seat. -/
def c7Events : List Event :=
  [Event.createGame "A" "G" "white" "F1" true,
   Event.joinGame "B" "G"]

/-- C7 counterexample: after the join that fills the second seat of game G,
both seats are occupied yet G is still present in the open-games table, so
the published listing contains a session without a free seat.  The claim
says the session leaves the open-lobby set as soon as both seats fill. -/
theorem c7_counterexample :
    (lookupEntry (run toyEngine initialState c7Events).games "G").map
        (fun g => bothSeatsOccupied g) = some true ∧
    (lookupEntry (run toyEngine initialState c7Events).openGames "G").isSome = true := by
  decide

/-- C7 (amended): a join never touches the open-games table — entries are
only ever written by create and never removed — so sessions stay in the
published open listing after both seats fill. -/
theorem c7_join_lobby_amended {Pos : Type} (eng : Engine Pos)
    (st : ServerState Pos) (sid gid : String) :
    (step eng st (Event.joinGame sid gid)).1.openGames = st.openGames := by
  cases h : lookupEntry st.games gid with
  | none => simp [step, joinGame, h]
  | some g =>
      by_cases hw : g.players.white = none
      · simp [step, joinGame, h, hw]
      · by_cases hb : g.players.black = none
        · simp [step, joinGame, h, hw, hb]
        · simp [step, joinGame, h, hw, hb]

/-- The game object after an accepted move: the new position, the appended
from-to history entry, and the capture bookkeeping. -/
def moveUpdatedGame {Pos : Type} (g : Game Pos) (mv : MoveRec Pos)
    (fromSq toSq : String) : Game Pos :=
  applyCapture
    { g with chess := mv.newPos
             moveHistory := g.moveHistory ++ [fromSq ++ "-" ++ toSq] }
    mv

/-- C1 counterexample: game G has only its white seat occupied — per the
design document such a session is still awaiting its second player, not in
progress — yet the seated creator's move is accepted and the move log grows
from empty to one entry.  The claim says a move is accepted only when the
game is in progress. -/
theorem c1_counterexample :
    bothSeatsOccupied gameOneSeat = false ∧
    (lookupEntry stOneSeat.games "G").map (fun g => g.moveHistory) = some [] ∧
    (lookupEntry (step toyEngine stOneSeat
        (Event.makeMove "A" "G" "e2" "e4")).1.games "G").map
      (fun g => g.moveHistory) = some ["e2-e4"] := by
  decide

/-- C1 (amended): a move is accepted exactly when the session exists, the
requesting connection occupies the seat whose color equals the engine
side-to-move, and the engine validates the move — there is no phase gate,
so this holds even while the second seat is still empty; every rejected
attempt (unknown id, out of turn, engine-invalid) leaves the whole server
state — position, move log and both capture collections included — exactly
as it was. -/
theorem c1_move_gating_amended {Pos : Type} (eng : Engine Pos)
    (st : ServerState Pos) (sid gid fromSq toSq : String) :
    (lookupEntry st.games gid = none →
      (step eng st (Event.makeMove sid gid fromSq toSq)).1 = st) ∧
    (∀ g, lookupEntry st.games gid = some g → seatFor eng g ≠ some sid →
      (step eng st (Event.makeMove sid gid fromSq toSq)).1 = st) ∧
    (∀ g, lookupEntry st.games gid = some g → eng.move g.chess fromSq toSq = none →
      (step eng st (Event.makeMove sid gid fromSq toSq)).1 = st) ∧
    (∀ g mv, lookupEntry st.games gid = some g → seatFor eng g = some sid →
      eng.move g.chess fromSq toSq = some mv →
      (step eng st (Event.makeMove sid gid fromSq toSq)).1 =
        { st with games := setEntry st.games gid (moveUpdatedGame g mv fromSq toSq) }) := by
  refine ⟨?_, ?_, ?_, ?_⟩
  · intro h
    simp [step, makeMove, h]
  · intro g h hseat
    simp [step, makeMove, h, hseat]
  · intro g h hmv
    by_cases hseat : seatFor eng g = some sid
    · simp [step, makeMove, h, hseat, hmv]
    · simp [step, makeMove, h, hseat]
  · intro g mv h hseat hmv
    simp [step, makeMove, h, hseat, hmv, moveUpdatedGame]

/-- The toy move record of the accepted non-capturing move of the C1
witness. -/
def c1WitnessMove : MoveRec Nat :=
  { newPos := 1, color := Color.white, captured := none }

/-- Witness for C1 amended: with both seats occupied and white to move, the
white occupant's valid non-capturing move is accepted and the registry
holds the updated game. -/
theorem c1_move_gating_amended_witness :
    lookupEntry stBothSeats.games "G" = some gameBothSeats ∧
    seatFor toyEngine gameBothSeats = some "A" ∧
    toyEngine.move gameBothSeats.chess "e2" "e4" = some c1WitnessMove ∧
    (step toyEngine stBothSeats (Event.makeMove "A" "G" "e2" "e4")).1 =
      { stBothSeats with
          games := setEntry stBothSeats.games "G" (moveUpdatedGame gameBothSeats c1WitnessMove "e2" "e4") } :=
  ⟨rfl, rfl, by decide,
   (c1_move_gating_amended toyEngine stBothSeats "A" "G" "e2" "e4").2.2.2
     gameBothSeats c1WitnessMove rfl rfl (by decide)⟩

/-- C2: evaluation of the code at a checkmating move.  In gameMate it is
white to move (the toy position 2 is even) and white's accepted move
produces a checkmate position, yet the broadcast game-over notice carries
winner = the engine side-to-move of the position AFTER the move — black,
the side that was just mated — instead of the side that just moved.  The
mover's color and the emitted winner are shown to differ. -/
theorem c2_gameover_winner_evaluation :
    (toyEngine.move gameMate.chess "e2" "e4").map (fun mv => mv.color) =
      some Color.white ∧
    (step toyEngine stMate (Event.makeMove "A" "G" "e2" "e4")).2 =
      [Emit.toRoom "G" (Msg.updateFEN "3"),
       Emit.toRoom "G" (Msg.updateHistory ["e2-e4"]),
       Emit.toRoom "G" (Msg.gameOver "checkmate" Color.black)] := by
  decide

/-- Event sequence: one create request with role random. -/
def c3EventsFirst : List Event :=
  [Event.createGame "A" "G" "random" "F1" true]

/-- Event sequence: two connections both request role random on the same
fresh id in immediate succession (both random draws come up white). -/
def c3Events : List Event :=
  [Event.createGame "A" "G" "random" "F1" true,
   Event.createGame "B" "G" "random" "F2" true]

/-- C3 counterexample: after connection A's random request the white seat
is occupied by A; connection B's immediately following random request on
the same id lands on the same seat and silently displaces A — no seat-taken
failure — leaving B in white and the second seat still empty.  The claim
says an occupant is never displaced and that the two connections end up in
different seats. -/
theorem c3_counterexample :
    (lookupEntry (run toyEngine initialState c3EventsFirst).games "G").map
        (fun g => g.players) = some { white := some "A", black := none } ∧
    (lookupEntry (run toyEngine initialState c3Events).games "G").map
        (fun g => g.players) = some { white := some "B", black := none } := by
  decide

/-- C3 (amended): only the join path refuses to displace — it fills the
white seat if empty, else the black seat if empty, else fails with a
game-full notice and changes nothing; the create path assigns its chosen
seat unconditionally, overwriting any occupant, so two random create
requests on the same id can land on the same seat. -/
theorem c3_seat_assignment_amended {Pos : Type} (eng : Engine Pos)
    (st : ServerState Pos) (sid gid : String) (g : Game Pos)
    (h : lookupEntry st.games gid = some g) :
    (g.players.white = none →
      (lookupEntry (step eng st (Event.joinGame sid gid)).1.games gid).map
          (fun g2 => g2.players) =
        some { white := some sid, black := g.players.black }) ∧
    (∀ w, g.players.white = some w → g.players.black = none →
      (lookupEntry (step eng st (Event.joinGame sid gid)).1.games gid).map
          (fun g2 => g2.players) =
        some { white := some w, black := some sid }) ∧
    (∀ w b, g.players.white = some w → g.players.black = some b →
      step eng st (Event.joinGame sid gid) =
        (st, [Emit.toSocket sid (Msg.debug "Game is full!")])) ∧
    (∀ (role freshId : String) (coin : Bool), gid ≠ "" →
      (role = "white" ∨ (role = "random" ∧ coin = true)) →
      (lookupEntry (step eng st
          (Event.createGame sid gid role freshId coin)).1.games gid).map
        (fun g2 => g2.players.white) = some (some sid)) := by
  refine ⟨?_, ?_, ?_, ?_⟩
  · intro hw
    simp [step, joinGame, h, hw, lookupEntry_setEntry_self]
  · intro w hw hb
    simp [step, joinGame, h, hw, hb, lookupEntry_setEntry_self]
  · intro w b hw hb
    simp [step, joinGame, h, hw, hb]
  · intro role freshId coin hgid hrole
    rcases hrole with hr | ⟨hr, hc⟩
    · simp [step, createGame, hgid, h, hr, lookupEntry_setEntry_self]
    · simp [step, createGame, hgid, h, hr, hc, lookupEntry_setEntry_self]

/-- Witness for C3 amended: joining the one-seated concrete game fills the
black seat and keeps A in white. -/
theorem c3_seat_assignment_amended_witness :
    lookupEntry stOneSeat.games "G" = some gameOneSeat ∧
    (lookupEntry (step toyEngine stOneSeat (Event.joinGame "B" "G")).1.games "G").map
        (fun g2 => g2.players) =
      some { white := some "A", black := some "B" } :=
  ⟨rfl,
   (c3_seat_assignment_amended toyEngine stOneSeat "B" "G" gameOneSeat rfl).2.1
     "A" rfl rfl⟩

/-- C8: on an accepted capturing move exactly one entry — the uppercased
identifier the engine reported for the captured unit — is appended to the
collection of the side opposite to the moving piece's color, and the other
collection is untouched; an accepted non-capturing move leaves both
collections untouched. -/
theorem c8_capture_bookkeeping {Pos : Type} (eng : Engine Pos)
    (st : ServerState Pos) (sid gid fromSq toSq : String) (g : Game Pos)
    (mv : MoveRec Pos)
    (h : lookupEntry st.games gid = some g)
    (hseat : seatFor eng g = some sid)
    (hmv : eng.move g.chess fromSq toSq = some mv) :
    (∀ c, mv.captured = some c →
      ∃ g2, lookupEntry (step eng st
              (Event.makeMove sid gid fromSq toSq)).1.games gid = some g2 ∧
        capsOf g2.capturedPieces mv.color.opposite =
          capsOf g.capturedPieces mv.color.opposite ++ [c.toUpper] ∧
        capsOf g2.capturedPieces mv.color = capsOf g.capturedPieces mv.color) ∧
    (mv.captured = none →
      ∃ g2, lookupEntry (step eng st
              (Event.makeMove sid gid fromSq toSq)).1.games gid = some g2 ∧
        g2.capturedPieces = g.capturedPieces) := by
  constructor
  · intro c hc
    refine ⟨applyCapture
      { g with chess := mv.newPos
               moveHistory := g.moveHistory ++ [fromSq ++ "-" ++ toSq] } mv,
      ?_, ?_, ?_⟩
    · simp [step, makeMove, h, hseat, hmv, lookupEntry_setEntry_self]
    · cases hcol : mv.color <;>
        simp [applyCapture, hc, hcol, capsOf, Color.opposite]
    · cases hcol : mv.color <;>
        simp [applyCapture, hc, hcol, capsOf, Color.opposite]
  · intro hc
    refine ⟨applyCapture
      { g with chess := mv.newPos
               moveHistory := g.moveHistory ++ [fromSq ++ "-" ++ toSq] } mv,
      ?_, ?_⟩
    · simp [step, makeMove, h, hseat, hmv, lookupEntry_setEntry_self]
    · simp [applyCapture, hc]

/-- Witness for C8: white's capturing move in the concrete two-seat game
appends exactly the uppercased pawn identifier to the black-side collection
and leaves the white-side collection empty. -/
theorem c8_capture_bookkeeping_witness :
    ∃ g2, lookupEntry (step toyEngine stBothSeats
            (Event.makeMove "A" "G" "e2" "cap")).1.games "G" = some g2 ∧
      capsOf g2.capturedPieces Color.black =
        capsOf gameBothSeats.capturedPieces Color.black ++ ['P'] ∧
      capsOf g2.capturedPieces Color.white =
        capsOf gameBothSeats.capturedPieces Color.white :=
  (c8_capture_bookkeeping toyEngine stBothSeats "A" "G" "e2" "cap"
      gameBothSeats { newPos := 1, color := Color.white, captured := some 'p' }
      rfl rfl (by decide)).1 'p' rfl

end ChessServer
